import Mathlib

/-!
# Verification of the galvani BioLogic `.mpr` parser

A shallow embedding of `galvani/BioLogic.py` (the VMP binary format
decoder) together with theorems about its behaviour.

Conventions of the embedding:
* Python bytes are `List Nat` (each element is the byte value 0 ≤ b < 256
  on real inputs; slicing clamps exactly like Python slicing does);
* Python `dict` values are association lists whose update semantics
  (`dictSet`) replace an existing key in place and append a fresh key at
  the end, matching insertion-ordered Python dicts;
* fallible code returns `Except`, with one error constructor per distinct
  Python exception site, so that which exception fires is part of the
  verified behaviour.
-/

namespace Galvani

/-- First-match lookup in an association list (Python `d[k]` / `k in d`). -/
def dictLookup {α : Type} : List (Nat × α) → Nat → Option α
  | [], _ => none
  | (k, v) :: rest, key => if k = key then some v else dictLookup rest key

/-- Python `d[k] = v` on an insertion-ordered dict: replace the first
occurrence of the key in place, otherwise append at the end. -/
def dictSet {α : Type} : List (Nat × α) → Nat → α → List (Nat × α)
  | [], key, v => [(key, v)]
  | (k, w) :: rest, key, v =>
      if k = key then (key, v) :: rest else (k, w) :: dictSet rest key v

/-- Python `base.copy()` followed by `base.update(upd)` item by item. -/
def dictUpdate {α : Type} (base upd : List (Nat × α)) : List (Nat × α) :=
  upd.foldl (fun m kv => dictSet m kv.1 kv.2) base

/-- String-keyed variant of `dictLookup` (for `field_name_counts` and
`flags_dict`, which are keyed by field name). -/
def sdictLookup {α : Type} : List (String × α) → String → Option α
  | [], _ => none
  | (k, v) :: rest, key => if k = key then some v else sdictLookup rest key

/-- String-keyed variant of `dictSet`. -/
def sdictSet {α : Type} : List (String × α) → String → α → List (String × α)
  | [], key, v => [(key, v)]
  | (k, w) :: rest, key, v =>
      if k = key then (key, v) :: rest else (k, w) :: sdictSet rest key v

def stack_mode_colID_dtype_map : List (Nat × String × String) := [
  (103, "Estack/V", "<f4"),
  (163, "|Estack|/V", "<f4"),
  (211, "E1/V", "<f4"),
  (212, "E2/V", "<f4"),
  (213, "E3/V", "<f4"),
  (214, "E4/V", "<f4"),
  (215, "E5/V", "<f4"),
  (216, "E6/V", "<f4"),
  (217, "E7/V", "<f4"),
  (218, "E8/V", "<f4"),
  (219, "E9/V", "<f4"),
  (220, "E10/V", "<f4"),
  (241, "|E1|/V", "<f4"),
  (242, "|E2|/V", "<f4"),
  (243, "|E3|/V", "<f4"),
  (244, "|E4|/V", "<f4"),
  (245, "|E5|/V", "<f4"),
  (246, "|E6|/V", "<f4"),
  (247, "|E7|/V", "<f4"),
  (248, "|E8|/V", "<f4"),
  (249, "|E9|/V", "<f4"),
  (250, "|E10|/V", "<f4"),
  (271, "Phase(Z1)/deg", "<f4"),
  (272, "Phase(Z2)/deg", "<f4"),
  (273, "Phase(Z3)/deg", "<f4"),
  (274, "Phase(Z4)/deg", "<f4"),
  (275, "Phase(Z5)/deg", "<f4"),
  (276, "Phase(Z6)/deg", "<f4"),
  (277, "Phase(Z7)/deg", "<f4"),
  (278, "Phase(Z8)/deg", "<f4"),
  (279, "Phase(Z9)/deg", "<f4"),
  (280, "Phase(Z10)/deg", "<f4"),
  (301, "|Z1|/Ohm", "<f4"),
  (302, "|Z2|/Ohm", "<f4"),
  (303, "|Z3|/Ohm", "<f4"),
  (304, "|Z4|/Ohm", "<f4"),
  (305, "|Z5|/Ohm", "<f4"),
  (306, "|Z6|/Ohm", "<f4"),
  (307, "|Z7|/Ohm", "<f4"),
  (308, "|Z8|/Ohm", "<f4"),
  (309, "|Z9|/Ohm", "<f4"),
  (310, "|Z10|/Ohm", "<f4"),
  (331, "Re(Z1)/Ohm", "<f4"),
  (332, "Re(Z2)/Ohm", "<f4"),
  (333, "Re(Z3)/Ohm", "<f4"),
  (334, "Re(Z4)/Ohm", "<f4"),
  (335, "Re(Z5)/Ohm", "<f4"),
  (336, "Re(Z6)/Ohm", "<f4"),
  (337, "Re(Z7)/Ohm", "<f4"),
  (338, "Re(Z8)/Ohm", "<f4"),
  (339, "Re(Z9)/Ohm", "<f4"),
  (340, "Re(Z10)/Ohm", "<f4"),
  (361, "-Im(Z1)/Ohm", "<f4"),
  (362, "-Im(Z2)/Ohm", "<f4"),
  (363, "-Im(Z3)/Ohm", "<f4"),
  (364, "-Im(Z4)/Ohm", "<f4"),
  (365, "-Im(Z5)/Ohm", "<f4"),
  (366, "-Im(Z6)/Ohm", "<f4"),
  (367, "-Im(Z7)/Ohm", "<f4"),
  (368, "-Im(Z8)/Ohm", "<f4"),
  (369, "-Im(Z9)/Ohm", "<f4"),
  (370, "-Im(Z10)/Ohm", "<f4"),
  (391, "<E1>/V", "<f4"),
  (392, "<E2>/V", "<f4"),
  (393, "<E3>/V", "<f4"),
  (394, "<E4>/V", "<f4"),
  (395, "<E5>/V", "<f4"),
  (396, "<E6>/V", "<f4"),
  (397, "<E7>/V", "<f4"),
  (398, "<E8>/V", "<f4"),
  (399, "<E9>/V", "<f4"),
  (400, "<E10>/V", "<f4"),
  (422, "Phase(Zstack)/deg", "<f4"),
  (423, "|Zstack|/Ohm", "<f4"),
  (424, "Re(Zstack)/Ohm", "<f4"),
  (425, "-Im(Zstack)/Ohm", "<f4"),
  (426, "<Estack>/V", "<f4")
]

def VMPdata_colID_dtype_map : List (Nat × String × String) := [
  (4, "time/s", "<f8"),
  (5, "control/V/mA", "<f4"),
  (6, "Ewe/V", "<f4"),
  (7, "dq/mA.h", "<f8"),
  (8, "I/mA", "<f4"),
  (9, "Ece/V", "<f4"),
  (11, "<I>/mA", "<f8"),
  (13, "(Q-Qo)/mA.h", "<f8"),
  (16, "Analog IN 1/V", "<f4"),
  (17, "Analog IN 2/V", "<f4"),
  (19, "control/V", "<f4"),
  (20, "control/mA", "<f4"),
  (23, "dQ/mA.h", "<f8"),
  (24, "cycle number", "<f8"),
  (26, "Rapp/Ohm", "<f4"),
  (27, "Ewe-Ece/V", "<f4"),
  (32, "freq/Hz", "<f4"),
  (33, "|Ewe|/V", "<f4"),
  (34, "|I|/A", "<f4"),
  (35, "Phase(Z)/deg", "<f4"),
  (36, "|Z|/Ohm", "<f4"),
  (37, "Re(Z)/Ohm", "<f4"),
  (38, "-Im(Z)/Ohm", "<f4"),
  (39, "I Range", "<u2"),
  (50, "E0/V", "<f4"),
  (69, "R/Ohm", "<f4"),
  (70, "P/W", "<f4"),
  (73, "rotation rate/rpm", "<f4"),
  (74, "|Energy|/W.h", "<f8"),
  (75, "Analog OUT/V", "<f4"),
  (76, "<I>/mA", "<f4"),
  (77, "<Ewe>/V", "<f4"),
  (78, "Cs-2/µF-2", "<f4"),
  (80, "Rp/Ohm", "<f4"),
  (86, "Unk1", "<f4"),
  (96, "|Ece|/V", "<f4"),
  (97, "|Ice|/A", "<f4"),
  (98, "Phase(Zce)/deg", "<f4"),
  (99, "|Zce|/Ohm", "<f4"),
  (100, "Re(Zce)/Ohm", "<f4"),
  (101, "-Im(Zce)/Ohm", "<f4"),
  (102, "Cce-2/µF-2", "<f4"),
  (123, "Energy charge/W.h", "<f8"),
  (124, "Energy discharge/W.h", "<f8"),
  (125, "Capacitance charge/µF", "<f8"),
  (126, "Capacitance discharge/µF", "<f8"),
  (131, "Ns", "<u2"),
  (134, "Custom01", "<f4"),
  (135, "Custom02", "<f4"),
  (136, "Custom03", "<f4"),
  (137, "Custom04", "<f4"),
  (138, "Custom05", "<f4"),
  (139, "Custom06", "<f4"),
  (140, "Custom07", "<f4"),
  (141, "Custom08", "<f4"),
  (168, "Rcmp/Ohm", "<f4"),
  (169, "Cs/µF", "<f4"),
  (170, "sin ampl/V", "<f4"),
  (172, "Cp/µF", "<f4"),
  (173, "Cp-2/µF-2", "<f4"),
  (174, "<Ewe>/V", "<f4"),
  (178, "(Q-Qo)/C", "<f4"),
  (179, "dQ/C", "<f4"),
  (182, "step time/s", "<f8"),
  (185, "<Ece>/V", "<f4"),
  (196, "If/mA", "<f4"),
  (197, "Ic/mA", "<f4"),
  (198, "CA/mol.L-1", "<f4"),
  (199, "CB/mol.L-1", "<f4"),
  (209, "pad number", "<f8"),
  (211, "Q charge/discharge/mA.h", "<f8"),
  (212, "half cycle", "<u4"),
  (213, "z cycle", "<u4"),
  (217, "THD Ewe/%", "<f4"),
  (218, "THD I/%", "<f4"),
  (220, "NSD Ewe/%", "<f4"),
  (221, "NSD I/%", "<f4"),
  (223, "NSR Ewe/%", "<f4"),
  (224, "NSR I/%", "<f4"),
  (230, "|Ewe h2|/V", "<f4"),
  (231, "|Ewe h3|/V", "<f4"),
  (232, "|Ewe h4|/V", "<f4"),
  (233, "|Ewe h5|/V", "<f4"),
  (234, "|Ewe h6|/V", "<f4"),
  (235, "|Ewe h7|/V", "<f4"),
  (236, "|I h2|/A", "<f4"),
  (237, "|I h3|/A", "<f4"),
  (238, "|I h4|/A", "<f4"),
  (239, "|I h5|/A", "<f4"),
  (240, "|I h6|/A", "<f4"),
  (241, "|I h7|/A", "<f4"),
  (430, "Phase(Zwe-ce)/deg", "<f4"),
  (431, "|Zwe-ce|/Ohm", "<f4"),
  (432, "Re(Zwe-ce)/Ohm", "<f4"),
  (433, "-Im(Zwe-ce)/Ohm", "<f4"),
  (434, "(Q-Qo)/C", "<f4"),
  (435, "dQ/C", "<f4"),
  (436, "Ece dc/V", "<f4"),
  (438, "step time/s", "<f8"),
  (441, "<Ece>/V", "<f4"),
  (444, "control disk/V", "<f4"),
  (446, "Edisk/V", "<f4"),
  (448, "Idisk/mA", "<f4"),
  (450, "(Q-Qo)disk/C", "<f8"),
  (451, "cycle number", "<f8"),
  (452, "control ring/V", "<f4"),
  (453, "Ering/V", "<f4"),
  (454, "Iring/mA", "<f4"),
  (455, "(Q-Qo)ring/C", "<f8"),
  (462, "Temperature/°C", "<f4"),
  (467, "Q charge/discharge/mA.h", "<f8"),
  (468, "half cycle", "<u4"),
  (469, "z cycle", "<u4"),
  (471, "<Ece>/V", "<f4"),
  (473, "THD Ewe/%", "<f4"),
  (474, "THD I/%", "<f4"),
  (475, "THD Ece/%", "<f4"),
  (476, "NSD Ewe/%", "<f4"),
  (477, "NSD I/%", "<f4"),
  (478, "NSD Ece/%", "<f4"),
  (479, "NSR Ewe/%", "<f4"),
  (480, "NSR I/%", "<f4"),
  (481, "NSR Ece/%", "<f4"),
  (486, "|Ewe h2|/V", "<f4"),
  (487, "|Ewe h3|/V", "<f4"),
  (488, "|Ewe h4|/V", "<f4"),
  (489, "|Ewe h5|/V", "<f4"),
  (490, "|Ewe h6|/V", "<f4"),
  (491, "|Ewe h7|/V", "<f4"),
  (492, "|I h2|/A", "<f4"),
  (493, "|I h3|/A", "<f4"),
  (494, "|I h4|/A", "<f4"),
  (495, "|I h5|/A", "<f4"),
  (496, "|I h6|/A", "<f4"),
  (497, "|I h7|/A", "<f4"),
  (498, "|Ece h2|/V", "<f4"),
  (499, "|Ece h3|/V", "<f4"),
  (500, "|Ece h4|/V", "<f4"),
  (501, "|Ece h5|/V", "<f4"),
  (502, "|Ece h6|/V", "<f4"),
  (503, "|Ece h7|/V", "<f4"),
  (505, "Rdc/Ohm", "<f4"),
  (509, "Acir/Dcir Control", "<u1")
]

def VMPdata_colID_flag_map : List (Nat × String × Nat × String) := [
  (1, "mode", 3, "uint8"),
  (2, "ox/red", 4, "bool_"),
  (3, "error", 8, "bool_"),
  (21, "control changes", 16, "bool_"),
  (31, "Ns changes", 32, "bool_"),
  (65, "counter inc.", 128, "bool_")
]

/-- The error raised by `VMPdata_dtype_from_colIDs` on an unknown column
ID (Python `NotImplementedError`): either the offending ID was the very
first column, or it follows a column whose unique field name is reported. -/
inductive ColError where
  | unknownFirst (cid : Nat)
  | unknownAfter (cid : Nat) (prev : String)
  deriving DecidableEq, Repr

/-- The loop state of `VMPdata_dtype_from_colIDs`: the numpy type list
built so far, the `field_name_counts` defaultdict and the `flags_dict`. -/
structure ColState where
  type_list : List (String × String)
  counts : List (String × Nat)
  flags_dict : List (String × Nat × String)
  deriving DecidableEq, Repr

/-- `field_name_counts[name] += 1` (a `defaultdict(int)`). -/
def countsInc (counts : List (String × Nat)) (name : String) : List (String × Nat) :=
  sdictSet counts name ((sdictLookup counts name).getD 0 + 1)

/-- One iteration of the `for colID in colIDs` loop of
`VMPdata_dtype_from_colIDs`, given the (already substituted) scalar
table `dtype_map`. -/
def colStep (dtype_map : List (Nat × String × String)) (st : ColState) (colID : Nat) :
    Except ColError ColState :=
  match dictLookup VMPdata_colID_flag_map colID with
  | some (flag_name, flag_mask, flag_type) =>
      -- `if "flags" not in field_name_counts`: append the single flags
      -- byte once; the flags dict entry is set in either case
      if (sdictLookup st.counts "flags").isNone then
        .ok { type_list := st.type_list ++ [("flags", "u1")]
              counts := countsInc st.counts "flags"
              flags_dict := sdictSet st.flags_dict flag_name (flag_mask, flag_type) }
      else
        .ok { st with flags_dict := sdictSet st.flags_dict flag_name (flag_mask, flag_type) }
  | none =>
      match dictLookup dtype_map colID with
      | some (field_name, field_type) =>
          let counts1 := countsInc st.counts field_name
          let count := (sdictLookup counts1 field_name).getD 0
          let unique_field_name :=
            if count > 1 then field_name ++ " " ++ toString count else field_name
          .ok { st with
                type_list := st.type_list ++ [(unique_field_name, field_type)]
                counts := counts1 }
      | none =>
          match st.type_list.getLast? with
          | some prev => .error (.unknownAfter colID prev.1)
          | none => .error (.unknownFirst colID)

/-- The `for colID in colIDs` loop of `VMPdata_dtype_from_colIDs`. -/
def colLoop (dtype_map : List (Nat × String × String)) (st : ColState) :
    List Nat → Except ColError ColState
  | [] => .ok st
  | colID :: rest =>
      match colStep dtype_map st colID with
      | .ok st1 => colLoop dtype_map st1 rest
      | .error e => .error e

/-- The scalar lookup table actually used for a given column-ID sequence:
the normal table, overridden entry by entry with the stack-mode table
when one of the marker IDs 103 / 424 occurs in the sequence. -/
def usedDtypeMap (colIDs : List Nat) : List (Nat × String × String) :=
  if 103 ∈ colIDs ∨ 424 ∈ colIDs then
    dictUpdate VMPdata_colID_dtype_map stack_mode_colID_dtype_map
  else VMPdata_colID_dtype_map

/-- Embedding of `VMPdata_dtype_from_colIDs`: from a sequence of column
IDs build the record layout (list of (unique field name, dtype string))
and the flags map. -/
def VMPdata_dtype_from_colIDs (colIDs : List Nat) :
    Except ColError (List (String × String) × List (String × Nat × String)) :=
  match colLoop (usedDtypeMap colIDs) ⟨[], [], []⟩ colIDs with
  | .ok st => .ok (st.type_list, st.flags_dict)
  | .error e => .error e

/-- Byte size of one scalar dtype string, as numpy itemsizes. -/
def dtypeSize : String → Nat
  | "<f8" => 8
  | "<f4" => 4
  | "<u4" => 4
  | "<u2" => 2
  | "<u1" => 1
  | "u1" => 1
  | _ => 0

/-- Itemsize of a packed record layout: numpy dtypes built from a plain
list of (name, type) pairs are packed with no padding. -/
def layoutSize (type_list : List (String × String)) : Nat :=
  (type_list.map (fun f => dtypeSize f.2)).sum

/-! ## Dictionary lemmas -/

theorem dictLookup_dictSet {α : Type} (m : List (Nat × α)) (key j : Nat) (v : α) :
    dictLookup (dictSet m key v) j = if key = j then some v else dictLookup m j := by
  induction m with
  | nil =>
      simp only [dictSet, dictLookup]
  | cons kv rest ih =>
      obtain ⟨k, w⟩ := kv
      by_cases hk : k = key
      · simp only [dictSet, if_pos hk, dictLookup, hk]
        by_cases hj : key = j <;> simp [hj]
      · simp only [dictSet, if_neg hk, dictLookup, ih]
        by_cases hj : k = j
        · have hkj : ¬(key = j) := fun h => hk (hj.trans h.symm)
          simp [hj, hkj]
        · simp [hj]

theorem dictLookup_dictUpdate_isSome {α : Type} (upd : List (Nat × α)) :
    ∀ (base : List (Nat × α)) (k : Nat),
      (dictLookup base k).isSome = true →
      (dictLookup (dictUpdate base upd) k).isSome = true := by
  induction upd with
  | nil => intro base k h; exact h
  | cons kv rest ih =>
      intro base k h
      show (dictLookup (dictUpdate (dictSet base kv.1 kv.2) rest) k).isSome = true
      apply ih
      rw [dictLookup_dictSet]
      split
      · rfl
      · exact h

theorem dictLookup_mem {α : Type} {m : List (Nat × α)} {k : Nat} {v : α}
    (h : dictLookup m k = some v) : (k, v) ∈ m := by
  induction m with
  | nil => simp [dictLookup] at h
  | cons kv rest ih =>
      obtain ⟨k0, v0⟩ := kv
      by_cases hk : k0 = k
      · rw [dictLookup, if_pos hk] at h
        injection h with hv
        rw [← hk, hv]
        exact List.mem_cons_self _ _
      · rw [dictLookup, if_neg hk] at h
        exact List.mem_cons_of_mem _ (ih h)

theorem dictSet_forall_values {α : Type} (P : α → Prop) (m : List (Nat × α))
    (key : Nat) (v : α) (hm : ∀ kv ∈ m, P kv.2) (hv : P v) :
    ∀ kv ∈ dictSet m key v, P kv.2 := by
  induction m with
  | nil =>
      intro kv hkv
      simp only [dictSet, List.mem_singleton] at hkv
      subst hkv; exact hv
  | cons kv0 rest ih =>
      intro kv hkv
      simp only [dictSet] at hkv
      split at hkv
      · rcases List.mem_cons.mp hkv with h | h
        · subst h; exact hv
        · exact hm kv (List.mem_cons_of_mem _ h)
      · rcases List.mem_cons.mp hkv with h | h
        · subst h; exact hm kv0 (List.mem_cons_self _ _)
        · exact ih (fun x hx => hm x (List.mem_cons_of_mem _ hx)) kv h

theorem dictUpdate_forall_values {α : Type} (P : α → Prop) (upd : List (Nat × α)) :
    ∀ (base : List (Nat × α)), (∀ kv ∈ base, P kv.2) → (∀ kv ∈ upd, P kv.2) →
      ∀ kv ∈ dictUpdate base upd, P kv.2 := by
  induction upd with
  | nil => intro base hb _ kv hkv; exact hb kv hkv
  | cons kv0 rest ih =>
      intro base hb hu kv hkv
      exact ih (dictSet base kv0.1 kv0.2)
        (dictSet_forall_values P base kv0.1 kv0.2 hb (hu kv0 (List.mem_cons_self _ _)))
        (fun x hx => hu x (List.mem_cons_of_mem _ hx)) kv hkv

theorem sdictLookup_sdictSet {α : Type} (m : List (String × α)) (key j : String) (v : α) :
    sdictLookup (sdictSet m key v) j = if key = j then some v else sdictLookup m j := by
  induction m with
  | nil =>
      simp only [sdictSet, sdictLookup]
  | cons kv rest ih =>
      obtain ⟨k, w⟩ := kv
      by_cases hk : k = key
      · simp only [sdictSet, if_pos hk, sdictLookup, hk]
        by_cases hj : key = j <;> simp [hj]
      · simp only [sdictSet, if_neg hk, sdictLookup, ih]
        by_cases hj : k = j
        · have hkj : ¬(key = j) := fun h => hk (hj.trans h.symm)
          simp [hj, hkj]
        · simp [hj]

/-! ## Known / unknown column IDs -/

/-- A column ID is known when it is in the flag table or in the active
scalar table. -/
def knownColID (m : List (Nat × String × String)) (c : Nat) : Prop :=
  (dictLookup VMPdata_colID_flag_map c).isSome = true ∨ (dictLookup m c).isSome = true

instance (m : List (Nat × String × String)) (c : Nat) : Decidable (knownColID m c) := by
  unfold knownColID; infer_instance

theorem colStep_ok_of_known (m : List (Nat × String × String)) (st : ColState) (c : Nat)
    (h : knownColID m c) : ∃ st', colStep m st c = .ok st' := by
  rcases hf : dictLookup VMPdata_colID_flag_map c with _ | fv
  · rcases hm : dictLookup m c with _ | sv
    · rcases h with h | h
      · rw [hf] at h; simp at h
      · rw [hm] at h; simp at h
    · rcases hx : colStep m st c with e | st1
      · exfalso
        obtain ⟨s1, s2⟩ := sv
        simp [colStep, hf, hm] at hx
      · exact ⟨st1, rfl⟩
  · rcases hx : colStep m st c with e | st1
    · exfalso
      obtain ⟨f1, f2, f3⟩ := fv
      simp only [colStep, hf] at hx
      split at hx <;> simp at hx
    · exact ⟨st1, rfl⟩

theorem colStep_error_elim (m : List (Nat × String × String)) (st : ColState) (c : Nat)
    (e : ColError) (h : colStep m st c = .error e) :
    ¬ knownColID m c ∧
      e = (match st.type_list.getLast? with
           | some prev => ColError.unknownAfter c prev.1
           | none => ColError.unknownFirst c) := by
  rcases hf : dictLookup VMPdata_colID_flag_map c with _ | fv
  · rcases hm : dictLookup m c with _ | sv
    · refine ⟨fun hk => ?_, ?_⟩
      · rcases hk with hk | hk
        · rw [hf] at hk; simp at hk
        · rw [hm] at hk; simp at hk
      · simp only [colStep, hf, hm] at h
        rcases hl : st.type_list.getLast? with _ | prev <;> rw [hl] at h <;>
          simp_all
    · obtain ⟨s1, s2⟩ := sv
      simp only [colStep, hf, hm] at h
      exact absurd h (by simp)
  · obtain ⟨f1, f2, f3⟩ := fv
    simp only [colStep, hf] at h
    split at h <;> simp at h

theorem colStep_ok_known (m : List (Nat × String × String)) (st st1 : ColState) (c : Nat)
    (h : colStep m st c = .ok st1) : knownColID m c := by
  rcases hf : dictLookup VMPdata_colID_flag_map c with _ | fv
  · rcases hm : dictLookup m c with _ | sv
    · exfalso
      simp only [colStep, hf, hm] at h
      rcases hl : st.type_list.getLast? with _ | prev <;> rw [hl] at h <;> simp_all
    · exact Or.inr (by rw [hm]; rfl)
  · exact Or.inl (by rw [hf]; rfl)

theorem colLoop_ok_iff (m : List (Nat × String × String)) :
    ∀ (ids : List Nat) (st : ColState),
      (∃ st', colLoop m st ids = .ok st') ↔ ∀ c ∈ ids, knownColID m c := by
  intro ids
  induction ids with
  | nil => intro st; simp [colLoop]
  | cons c rest ih =>
      intro st
      constructor
      · rintro ⟨st', h⟩ x hx
        rcases hs : colStep m st c with e | st1 <;> rw [colLoop, hs] at h
        · exact absurd h (by simp)
        · rcases List.mem_cons.mp hx with hx | hx
          · subst hx
            exact colStep_ok_known m st st1 x hs
          · exact ((ih st1).mp ⟨st', h⟩) x hx
      · intro h
        obtain ⟨st1, hs⟩ := colStep_ok_of_known m st c (h c (List.mem_cons_self _ _))
        obtain ⟨st', hl⟩ := (ih st1).mpr (fun x hx => h x (List.mem_cons_of_mem _ hx))
        exact ⟨st', by rw [colLoop, hs]; exact hl⟩

theorem colLoop_error_split (m : List (Nat × String × String)) :
    ∀ (ids : List Nat) (st : ColState) (e : ColError), colLoop m st ids = .error e →
      ∃ pre c post st', ids = pre ++ c :: post ∧
        (∀ x ∈ pre, knownColID m x) ∧ ¬ knownColID m c ∧
        colLoop m st pre = .ok st' ∧ colStep m st' c = .error e := by
  intro ids
  induction ids with
  | nil => intro st e h; rw [colLoop] at h; exact absurd h (by simp)
  | cons c rest ih =>
      intro st e h
      rcases hs : colStep m st c with e1 | st1 <;> rw [colLoop, hs] at h
      · refine ⟨[], c, rest, st, by simp, by simp, ?_, rfl, ?_⟩
        · exact (colStep_error_elim m st c e1 hs).1
        · rw [hs]; injection h with h; rw [h]
      · obtain ⟨pre, c1, post, st', heq, hpre, hc, hloop, hstep⟩ := ih st1 e h
        refine ⟨c :: pre, c1, post, st', by rw [heq]; rfl, ?_, hc, ?_, hstep⟩
        · intro x hx
          rcases List.mem_cons.mp hx with hx | hx
          · subst hx; exact colStep_ok_known m st st1 x hs
          · exact hpre x hx
        · rw [colLoop, hs]; exact hloop

theorem colStep_type_list_append (m : List (Nat × String × String)) (st st1 : ColState)
    (c : Nat) (h : colStep m st c = .ok st1) :
    ∃ tail, st1.type_list = st.type_list ++ tail := by
  rcases hf : dictLookup VMPdata_colID_flag_map c with _ | fv
  · rcases hm : dictLookup m c with _ | sv
    · exfalso
      rcases colStep_ok_known m st st1 c h with hk | hk
      · rw [hf] at hk; simp at hk
      · rw [hm] at hk; simp at hk
    · obtain ⟨s1, s2⟩ := sv
      simp only [colStep, hf, hm] at h
      injection h with h
      exact ⟨_, by rw [← h]⟩
  · obtain ⟨f1, f2, f3⟩ := fv
    rcases hfl : sdictLookup st.counts "flags" with _ | k
    · have hs2 : colStep m st c = .ok
          { type_list := st.type_list ++ [("flags", "u1")]
            counts := countsInc st.counts "flags"
            flags_dict := sdictSet st.flags_dict f1 (f2, f3) } := by
        unfold colStep
        rw [hf, hfl]
        rfl
      rw [hs2] at h
      injection h with h
      exact ⟨[("flags", "u1")], by rw [← h]⟩
    · have hs2 : colStep m st c = .ok
          { st with flags_dict := sdictSet st.flags_dict f1 (f2, f3) } := by
        unfold colStep
        rw [hf, hfl]
        rfl
      rw [hs2] at h
      injection h with h
      exact ⟨[], by rw [← h]; simp⟩

theorem colLoop_type_list_append (m : List (Nat × String × String)) :
    ∀ (ids : List Nat) (st st' : ColState), colLoop m st ids = .ok st' →
      ∃ tail, st'.type_list = st.type_list ++ tail := by
  intro ids
  induction ids with
  | nil =>
      intro st st' h
      rw [colLoop] at h
      injection h with h
      exact ⟨[], by rw [← h]; simp⟩
  | cons c rest ih =>
      intro st st' h
      rcases hs : colStep m st c with e | st1 <;> rw [colLoop, hs] at h
      · exact absurd h (by simp)
      · obtain ⟨t1, ht1⟩ := colStep_type_list_append m st st1 c hs
        obtain ⟨t2, ht2⟩ := ih st1 st' h
        exact ⟨t1 ++ t2, by rw [ht2, ht1, List.append_assoc]⟩

theorem colStep_from_start_nonempty (m : List (Nat × String × String))
    (st st1 : ColState) (c : Nat) (hcounts : sdictLookup st.counts "flags" = none)
    (h : colStep m st c = .ok st1) : st1.type_list ≠ [] := by
  rcases hf : dictLookup VMPdata_colID_flag_map c with _ | fv
  · rcases hm : dictLookup m c with _ | sv
    · exfalso
      rcases colStep_ok_known m st st1 c h with hk | hk
      · rw [hf] at hk; simp at hk
      · rw [hm] at hk; simp at hk
    · obtain ⟨s1, s2⟩ := sv
      simp only [colStep, hf, hm] at h
      injection h with h
      rw [← h]
      simp
  · obtain ⟨f1, f2, f3⟩ := fv
    have hs2 : colStep m st c = .ok
        { type_list := st.type_list ++ [("flags", "u1")]
          counts := countsInc st.counts "flags"
          flags_dict := sdictSet st.flags_dict f1 (f2, f3) } := by
      unfold colStep
      rw [hf, hcounts]
      rfl
    rw [hs2] at h
    injection h with h
    rw [← h]
    simp

theorem colLoop_append (m : List (Nat × String × String)) :
    ∀ (xs ys : List Nat) (st : ColState),
      colLoop m st (xs ++ ys)
        = match colLoop m st xs with
          | .ok st1 => colLoop m st1 ys
          | .error e => .error e := by
  intro xs
  induction xs with
  | nil => intro ys st; rfl
  | cons x xs ih =>
      intro ys st
      show colLoop m st (x :: (xs ++ ys)) = _
      rcases hs : colStep m st x with e | st1
      · simp only [colLoop, hs]
      · simp only [colLoop, hs]
        exact ih ys st1

theorem colLoop_append_ok (m : List (Nat × String × String)) (xs ys : List Nat)
    (st st1 : ColState) (h : colLoop m st xs = .ok st1) :
    colLoop m st (xs ++ ys) = colLoop m st1 ys := by
  rw [colLoop_append, h]

/-! ## Claim theorems: column registry -/

/-- C9: the effective stack-mode lookup table (the normal table updated
entry by entry with the stack-mode entries) resolves every column ID the
normal table resolves; it is activated exactly when marker ID 103 or 424
occurs anywhere in the column-ID sequence; and the substitution is
applied once for the whole sequence, before layout construction, so every
column ID is resolved against that same single table. -/
theorem C9_stack_mode_table :
    (∀ k, (dictLookup VMPdata_colID_dtype_map k).isSome = true →
      (dictLookup (dictUpdate VMPdata_colID_dtype_map stack_mode_colID_dtype_map) k).isSome
        = true)
    ∧ (∀ colIDs : List Nat,
        usedDtypeMap colIDs =
          if 103 ∈ colIDs ∨ 424 ∈ colIDs then
            dictUpdate VMPdata_colID_dtype_map stack_mode_colID_dtype_map
          else VMPdata_colID_dtype_map)
    ∧ (∀ colIDs : List Nat,
        VMPdata_dtype_from_colIDs colIDs =
          match colLoop (usedDtypeMap colIDs) ⟨[], [], []⟩ colIDs with
          | .ok st => .ok (st.type_list, st.flags_dict)
          | .error e => .error e) :=
  ⟨fun k => dictLookup_dictUpdate_isSome stack_mode_colID_dtype_map VMPdata_colID_dtype_map k,
   fun _ => rfl, fun _ => rfl⟩

/-- Witness for C9: column ID 4 (`time/s`), resolvable in the normal
table, is still resolvable after the stack-mode substitution. -/
theorem C9_stack_mode_table_witness :
    (dictLookup (dictUpdate VMPdata_colID_dtype_map stack_mode_colID_dtype_map) 4).isSome
      = true :=
  C9_stack_mode_table.1 4 (by decide)

/-- C5: building a record layout from a column-ID sequence fails iff the
sequence contains an ID absent from both the active scalar table and the
flag table (in particular an empty or fully-known sequence never fails);
if the very first ID is unknown the error says so explicitly; an
`unknownAfter` error names the first unknown ID together with the name of
the column placed immediately before it; and conversely, an unknown ID
with a nonempty all-known prefix always produces exactly that
`unknownAfter` error, naming the last column placed from the prefix. -/
theorem C5_unknown_column_error (colIDs : List Nat) :
    ((∃ r, VMPdata_dtype_from_colIDs colIDs = .ok r) ↔
       ∀ c ∈ colIDs, knownColID (usedDtypeMap colIDs) c)
    ∧ (∀ cid rest, colIDs = cid :: rest → ¬ knownColID (usedDtypeMap colIDs) cid →
        VMPdata_dtype_from_colIDs colIDs = .error (.unknownFirst cid))
    ∧ (∀ cid prev, VMPdata_dtype_from_colIDs colIDs = .error (.unknownAfter cid prev) →
        ¬ knownColID (usedDtypeMap colIDs) cid ∧
        ∃ pre post st ty, colIDs = pre ++ cid :: post ∧
          (∀ x ∈ pre, knownColID (usedDtypeMap colIDs) x) ∧
          colLoop (usedDtypeMap colIDs) ⟨[], [], []⟩ pre = .ok st ∧
          st.type_list.getLast? = some (prev, ty))
    ∧ (∀ pre cid post, colIDs = pre ++ cid :: post → pre ≠ [] →
        (∀ x ∈ pre, knownColID (usedDtypeMap colIDs) x) →
        ¬ knownColID (usedDtypeMap colIDs) cid →
        ∃ st prev ty,
          colLoop (usedDtypeMap colIDs) ⟨[], [], []⟩ pre = .ok st ∧
          st.type_list.getLast? = some (prev, ty) ∧
          VMPdata_dtype_from_colIDs colIDs = .error (.unknownAfter cid prev)) := by
  refine ⟨?_, ?_, ?_, ?_⟩
  · constructor
    · rintro ⟨r, h⟩
      unfold VMPdata_dtype_from_colIDs at h
      rcases hl : colLoop (usedDtypeMap colIDs) ⟨[], [], []⟩ colIDs with e | st <;>
        rw [hl] at h
      · exact absurd h (by simp)
      · exact (colLoop_ok_iff (usedDtypeMap colIDs) colIDs ⟨[], [], []⟩).mp ⟨st, hl⟩
    · intro h
      obtain ⟨st, hl⟩ := (colLoop_ok_iff (usedDtypeMap colIDs) colIDs ⟨[], [], []⟩).mpr h
      exact ⟨(st.type_list, st.flags_dict), by unfold VMPdata_dtype_from_colIDs; rw [hl]⟩
  · intro cid rest heq hk
    subst heq
    have hstep : colStep (usedDtypeMap (cid :: rest)) ⟨[], [], []⟩ cid =
        .error (.unknownFirst cid) := by
      rcases hx : colStep (usedDtypeMap (cid :: rest)) ⟨[], [], []⟩ cid with e | st1
      · obtain ⟨-, he⟩ := colStep_error_elim _ _ _ _ hx
        rw [he]
        rfl
      · exact absurd (colStep_ok_known _ _ _ _ hx) hk
    unfold VMPdata_dtype_from_colIDs
    rw [colLoop, hstep]
  · intro cid prev h
    unfold VMPdata_dtype_from_colIDs at h
    rcases hl : colLoop (usedDtypeMap colIDs) ⟨[], [], []⟩ colIDs with e | st <;>
      rw [hl] at h
    · injection h with h
      subst h
      obtain ⟨pre, c, post, st', heq, hpre, hc, hloop, hstep⟩ :=
        colLoop_error_split _ colIDs ⟨[], [], []⟩ _ hl
      obtain ⟨-, he⟩ := colStep_error_elim _ _ _ _ hstep
      rcases hlast : st'.type_list.getLast? with _ | p <;> rw [hlast] at he
      · exact absurd he (by simp)
      · have hc' : c = cid := by injection he with h1 _; exact h1.symm ▸ rfl
        have hp : p.1 = prev := by injection he with _ h2; exact h2.symm ▸ rfl
        subst hc'
        exact ⟨hc, pre, post, st', p.2, heq, hpre, hloop, by rw [hlast, ← hp]⟩
    · exact absurd h (by simp)
  · intro pre cid post heq hprene hknown hunk
    subst heq
    obtain ⟨st, hloop⟩ :=
      (colLoop_ok_iff (usedDtypeMap (pre ++ cid :: post)) pre ⟨[], [], []⟩).mpr hknown
    have hne : st.type_list ≠ [] := by
      rcases pre with _ | ⟨c0, pre1⟩
      · exact absurd rfl hprene
      · rcases hs0 : colStep (usedDtypeMap ((c0 :: pre1) ++ cid :: post))
            ⟨[], [], []⟩ c0 with e | st1 <;> rw [colLoop, hs0] at hloop
        · exact absurd hloop (by simp)
        · have h1 := colStep_from_start_nonempty _ ⟨[], [], []⟩ st1 c0 rfl hs0
          obtain ⟨tail, htail⟩ := colLoop_type_list_append _ pre1 st1 st hloop
          rw [htail]
          intro hcon
          exact h1 (List.append_eq_nil.mp hcon).1
    rcases hlast : st.type_list.getLast? with _ | p
    · exact absurd (List.getLast?_eq_none_iff.mp hlast) hne
    · rcases hsx : colStep (usedDtypeMap (pre ++ cid :: post)) st cid with e | stx
      · obtain ⟨-, he⟩ := colStep_error_elim _ _ _ _ hsx
        rw [hlast] at he
        refine ⟨st, p.1, p.2, hloop, by rw [hlast], ?_⟩
        have hrest : colLoop (usedDtypeMap (pre ++ cid :: post)) st (cid :: post)
            = .error (.unknownAfter cid p.1) := by
          rw [colLoop, hsx, he]
        unfold VMPdata_dtype_from_colIDs
        rw [colLoop_append_ok _ _ _ _ _ hloop, hrest]
      · exact absurd (colStep_ok_known _ _ _ _ hsx) hunk

/-- Witness for C5: in `[4, 999]` the ID 999 is unknown and the reported
preceding column is `time/s`. -/
theorem C5_unknown_column_error_witness :
    ¬ knownColID (usedDtypeMap [4, 999]) 999 :=
  ((C5_unknown_column_error [4, 999]).2.2.1 999 "time/s" rfl).1

/-! ## Layout size (C6) -/

/-- The byte contribution of one column ID to the record layout: the
itemsize of its scalar dtype for a scalar code, nothing for flag codes
(they share the single `flags` byte) and nothing for unknown codes. -/
def scalarSizeOf (m : List (Nat × String × String)) (c : Nat) : Nat :=
  match dictLookup VMPdata_colID_flag_map c with
  | some _ => 0
  | none =>
      match dictLookup m c with
      | some sv => dtypeSize sv.2
      | none => 0

theorem layoutSize_append (l : List (String × String)) (x : String × String) :
    layoutSize (l ++ [x]) = layoutSize l + dtypeSize x.2 := by
  simp [layoutSize]

theorem sdictLookup_countsInc_self (counts : List (String × Nat)) (n : String) :
    sdictLookup (countsInc counts n) n = some ((sdictLookup counts n).getD 0 + 1) := by
  unfold countsInc
  rw [sdictLookup_sdictSet, if_pos rfl]

theorem sdictLookup_countsInc_ne (counts : List (String × Nat)) (n k : String)
    (h : n ≠ k) : sdictLookup (countsInc counts n) k = sdictLookup counts k := by
  unfold countsInc
  rw [sdictLookup_sdictSet, if_neg h]

set_option maxRecDepth 4000 in
theorem usedDtypeMap_no_flags_name (colIDs : List Nat) :
    ∀ c sv, dictLookup (usedDtypeMap colIDs) c = some sv → sv.1 ≠ "flags" := by
  intro c sv h
  have hmem := dictLookup_mem h
  have hbase : ∀ kv ∈ VMPdata_colID_dtype_map, kv.2.1 ≠ "flags" := by decide
  have hstack : ∀ kv ∈ stack_mode_colID_dtype_map, kv.2.1 ≠ "flags" := by decide
  unfold usedDtypeMap at hmem
  split at hmem
  · exact dictUpdate_forall_values (fun v => v.1 ≠ "flags") _ _ hbase hstack _ hmem
  · exact hbase _ hmem

theorem colLoop_layoutSize (m : List (Nat × String × String))
    (hm : ∀ c sv, dictLookup m c = some sv → sv.1 ≠ "flags") :
    ∀ (ids : List Nat) (st st' : ColState), colLoop m st ids = .ok st' →
      layoutSize st'.type_list = layoutSize st.type_list
        + (ids.map (scalarSizeOf m)).sum
        + (if (ids.any fun c => (dictLookup VMPdata_colID_flag_map c).isSome) = true
              ∧ sdictLookup st.counts "flags" = none
           then 1 else 0) := by
  intro ids
  induction ids with
  | nil =>
      intro st st' h
      rw [colLoop] at h
      injection h with h
      subst h
      simp
  | cons c rest ih =>
      intro st st' h
      rcases hs : colStep m st c with e | st1 <;> rw [colLoop, hs] at h
      · exact absurd h (by simp)
      · have hrest := ih st1 st' h
        rcases hf : dictLookup VMPdata_colID_flag_map c with _ | fv
        · rcases hsc : dictLookup m c with _ | sv
          · exfalso
            simp only [colStep, hf, hsc] at hs
            rcases hl : st.type_list.getLast? with _ | p <;> rw [hl] at hs <;> simp_all
          · -- scalar column: one field of size `dtypeSize sv.2` is appended
            obtain ⟨s1, s2⟩ := sv
            simp only [colStep, hf, hsc] at hs
            injection hs with hs
            have hname : s1 ≠ "flags" := hm c (s1, s2) hsc
            have hcounts : sdictLookup st1.counts "flags" = sdictLookup st.counts "flags" := by
              rw [← hs]
              exact sdictLookup_countsInc_ne st.counts s1 "flags" hname
            have hsize : layoutSize st1.type_list
                = layoutSize st.type_list + dtypeSize s2 := by
              rw [← hs]
              exact layoutSize_append _ _
            rw [hrest, hsize, hcounts]
            have hscalar : scalarSizeOf m c = dtypeSize s2 := by
              unfold scalarSizeOf
              rw [hf, hsc]
            have hany : ((c :: rest).any fun x => (dictLookup VMPdata_colID_flag_map x).isSome)
                = (rest.any fun x => (dictLookup VMPdata_colID_flag_map x).isSome) := by
              simp [List.any_cons, hf]
            rw [List.map_cons, List.sum_cons, hscalar, hany]
            try omega
        · -- flag column
          obtain ⟨f1, f2, f3⟩ := fv
          rcases hfl : sdictLookup st.counts "flags" with _ | k
          · -- first flag: the one-byte `flags` field is appended
            have hs2 : colStep m st c = .ok
                { type_list := st.type_list ++ [("flags", "u1")]
                  counts := countsInc st.counts "flags"
                  flags_dict := sdictSet st.flags_dict f1 (f2, f3) } := by
              unfold colStep
              rw [hf, hfl]
              rfl
            rw [hs2] at hs
            injection hs with hs
            have hcounts : sdictLookup st1.counts "flags" = some 1 := by
              rw [← hs]
              show sdictLookup (countsInc st.counts "flags") "flags" = some 1
              rw [sdictLookup_countsInc_self, hfl]
              rfl
            have hsize : layoutSize st1.type_list = layoutSize st.type_list + 1 := by
              rw [← hs]
              exact layoutSize_append _ _
            rw [hrest, hsize, hcounts]
            have hscalar : scalarSizeOf m c = 0 := by
              unfold scalarSizeOf
              rw [hf]
            have hany : ((c :: rest).any fun x => (dictLookup VMPdata_colID_flag_map x).isSome)
                = true := by
              simp [List.any_cons, hf]
            rw [List.map_cons, List.sum_cons, hscalar, hany]
            simp [hfl]
            omega
          · -- later flag: only the flags dict changes
            have hs2 : colStep m st c = .ok
                { st with flags_dict := sdictSet st.flags_dict f1 (f2, f3) } := by
              unfold colStep
              rw [hf, hfl]
              rfl
            rw [hs2] at hs
            injection hs with hs
            have hcounts : sdictLookup st1.counts "flags" = some k := by rw [← hs, hfl]
            have hsize : layoutSize st1.type_list = layoutSize st.type_list := by rw [← hs]
            rw [hrest, hsize, hcounts]
            have hscalar : scalarSizeOf m c = 0 := by
              unfold scalarSizeOf
              rw [hf]
            rw [List.map_cons, List.sum_cons, hscalar]
            simp [hfl, hf]

/-- C6: for a column-ID sequence of known codes, the byte size of the
record layout is the sum of the scalar field sizes of the scalar codes,
plus one extra byte iff at least one flag code is present (no matter how
many flag codes occur). -/
theorem C6_layout_size (colIDs : List Nat) (layout : List (String × String))
    (fd : List (String × Nat × String))
    (h : VMPdata_dtype_from_colIDs colIDs = .ok (layout, fd)) :
    layoutSize layout =
      (colIDs.map (scalarSizeOf (usedDtypeMap colIDs))).sum
      + (if (colIDs.any fun c => (dictLookup VMPdata_colID_flag_map c).isSome) = true
         then 1 else 0) := by
  unfold VMPdata_dtype_from_colIDs at h
  rcases hl : colLoop (usedDtypeMap colIDs) ⟨[], [], []⟩ colIDs with e | st <;> rw [hl] at h
  · exact absurd h (by simp)
  · injection h with h
    injection h with h1 h2
    have hsz := colLoop_layoutSize (usedDtypeMap colIDs)
      (usedDtypeMap_no_flags_name colIDs) colIDs ⟨[], [], []⟩ st hl
    rw [← h1, hsz]
    have hinit : layoutSize (⟨[], [], []⟩ : ColState).type_list = 0 := rfl
    have hinitc : sdictLookup (⟨[], [], []⟩ : ColState).counts "flags" = none := rfl
    rw [hinit, hinitc]
    by_cases hany : (colIDs.any fun c => (dictLookup VMPdata_colID_flag_map c).isSome) = true
    · rw [if_pos ⟨hany, rfl⟩, if_pos hany]
      omega
    · rw [if_neg (fun hh => hany hh.1), if_neg hany]
      omega

/-- Witness for C6: sequence `[1, 4]` (flag `mode`, scalar `time/s`)
yields a 9-byte record: 8 for `time/s` plus the single flags byte. -/
theorem C6_layout_size_witness :
    layoutSize [("flags", "u1"), ("time/s", "<f8")] =
      (([1, 4] : List Nat).map (scalarSizeOf (usedDtypeMap [1, 4]))).sum
      + (if (([1, 4] : List Nat).any
              fun c => (dictLookup VMPdata_colID_flag_map c).isSome) = true
         then 1 else 0) :=
  C6_layout_size [1, 4] _ _ rfl

/-! ## Unique field names (C7) -/

/-- Written from the spec's wording, for comparison with the code: given
the sequence of base field names, a name already used gets suffixed with
its 1-based occurrence count, the first occurrence keeps the bare name. -/
def specUniqueNames (seen : List String) : List String → List String
  | [] => []
  | b :: rest =>
      (if seen.count b = 0 then b else b ++ " " ++ toString (seen.count b + 1))
        :: specUniqueNames (seen ++ [b]) rest

/-- The sequence of base field names appended to the layout by
`VMPdata_dtype_from_colIDs`: each scalar code contributes its table name,
the first flag code contributes `flags`, later flag codes contribute
nothing; truncated at the first unknown code. -/
def baseNames (m : List (Nat × String × String)) :
    List Nat → Bool → List String
  | [] => fun _ => []
  | c :: rest => fun flagSeen =>
      match dictLookup VMPdata_colID_flag_map c with
      | some _ =>
          if flagSeen then baseNames m rest true
          else "flags" :: baseNames m rest true
      | none =>
          match dictLookup m c with
          | some sv => sv.1 :: baseNames m rest flagSeen
          | none => []

theorem specUniqueNames_cons (seen : List String) (b : String) (bs : List String) :
    specUniqueNames seen (b :: bs)
      = (if seen.count b = 0 then b else b ++ " " ++ toString (seen.count b + 1))
        :: specUniqueNames (seen ++ [b]) bs := rfl

theorem count_append_singleton_ne (acc : List String) (a f : String) (h : a ≠ f) :
    (acc ++ [a]).count f = acc.count f := by
  simp [List.count_append, List.count_singleton]
  intro hh
  exact absurd hh h

theorem count_append_singleton_self (acc : List String) (a : String) :
    (acc ++ [a]).count a = acc.count a + 1 := by
  simp [List.count_append, List.count_singleton]

theorem colLoop_names (m : List (Nat × String × String))
    (hm : ∀ c sv, dictLookup m c = some sv → sv.1 ≠ "flags") :
    ∀ (ids : List Nat) (st st' : ColState) (acc : List String),
      (∀ f, sdictLookup st.counts f
          = if acc.count f = 0 then none else some (acc.count f)) →
      colLoop m st ids = .ok st' →
      st'.type_list.map Prod.fst
        = st.type_list.map Prod.fst
          ++ specUniqueNames acc (baseNames m ids (acc.count "flags" != 0)) := by
  intro ids
  induction ids with
  | nil =>
      intro st st' acc hinv h
      rw [colLoop] at h
      injection h with h
      subst h
      simp [baseNames, specUniqueNames]
  | cons c rest ih =>
      intro st st' acc hinv h
      rcases hs : colStep m st c with e | st1 <;> rw [colLoop, hs] at h
      · exact absurd h (by simp)
      · rcases hf : dictLookup VMPdata_colID_flag_map c with _ | fv
        · rcases hsc : dictLookup m c with _ | sv
          · exfalso
            simp only [colStep, hf, hsc] at hs
            rcases hl : st.type_list.getLast? with _ | p <;> rw [hl] at hs <;> simp_all
          · -- scalar code: the table name is appended, possibly suffixed
            obtain ⟨s1, s2⟩ := sv
            simp only [colStep, hf, hsc] at hs
            injection hs with hs
            have hname : s1 ≠ "flags" := hm c (s1, s2) hsc
            have hgd : (sdictLookup (countsInc st.counts s1) s1).getD 0
                = acc.count s1 + 1 := by
              unfold countsInc
              rw [sdictLookup_sdictSet, if_pos rfl, hinv s1]
              by_cases h0 : acc.count s1 = 0 <;> simp [h0]
            have hinv1 : ∀ f, sdictLookup st1.counts f
                = if (acc ++ [s1]).count f = 0 then none
                  else some ((acc ++ [s1]).count f) := by
              intro f
              rw [← hs]
              show sdictLookup (countsInc st.counts s1) f = _
              by_cases hf1 : s1 = f
              · subst hf1
                unfold countsInc
                rw [sdictLookup_sdictSet, if_pos rfl, hinv s1,
                  count_append_singleton_self]
                by_cases h0 : acc.count s1 = 0 <;> simp [h0]
              · rw [sdictLookup_countsInc_ne st.counts s1 f hf1, hinv f,
                  count_append_singleton_ne acc s1 f hf1]
            have hih := ih st1 st' (acc ++ [s1]) hinv1 h
            have hflagcount : (acc ++ [s1]).count "flags" = acc.count "flags" :=
              count_append_singleton_ne acc s1 "flags" hname
            rw [hih, ← hs]
            show (st.type_list ++ [_]).map Prod.fst ++ _ = _
            have hbn : baseNames m (c :: rest) (acc.count "flags" != 0)
                = s1 :: baseNames m rest (acc.count "flags" != 0) := by
              simp only [baseNames, hf, hsc]
            rw [hbn, specUniqueNames_cons, List.map_append, hflagcount]
            simp only [List.map_cons, List.map_nil, List.append_assoc,
              List.singleton_append, List.cons_append, List.nil_append]
            congr 1
            congr 1
            rw [hgd]
            by_cases h0 : acc.count s1 = 0
            · rw [if_pos h0, if_neg (show ¬(acc.count s1 + 1 > 1) by omega)]
            · rw [if_neg h0, if_pos (show acc.count s1 + 1 > 1 by omega)]
        · -- flag code
          obtain ⟨f1, f2, f3⟩ := fv
          rcases hfl0 : acc.count "flags" with _ | k
          · -- no flags byte yet: `flags` is appended
            have hfl : sdictLookup st.counts "flags" = none := by
              rw [hinv "flags", if_pos hfl0]
            have hs2 : colStep m st c = .ok
                { type_list := st.type_list ++ [("flags", "u1")]
                  counts := countsInc st.counts "flags"
                  flags_dict := sdictSet st.flags_dict f1 (f2, f3) } := by
              unfold colStep
              rw [hf, hfl]
              rfl
            rw [hs2] at hs
            injection hs with hs
            have hinv1 : ∀ f, sdictLookup st1.counts f
                = if (acc ++ ["flags"]).count f = 0 then none
                  else some ((acc ++ ["flags"]).count f) := by
              intro f
              rw [← hs]
              show sdictLookup (countsInc st.counts "flags") f = _
              by_cases hf1 : "flags" = f
              · subst hf1
                unfold countsInc
                rw [sdictLookup_sdictSet, if_pos rfl, hfl,
                  count_append_singleton_self, hfl0]
                simp
              · rw [sdictLookup_countsInc_ne st.counts "flags" f hf1, hinv f,
                  count_append_singleton_ne acc "flags" f hf1]
            have hih := ih st1 st' (acc ++ ["flags"]) hinv1 h
            rw [hih, ← hs]
            show (st.type_list ++ [_]).map Prod.fst ++ _ = _
            have hbn : baseNames m (c :: rest) ((0 : Nat) != 0)
                = "flags" :: baseNames m rest true := by
              simp [baseNames, hf]
            have hseen1 : ((acc ++ ["flags"]).count "flags" != 0) = true := by
              rw [count_append_singleton_self, hfl0]
              rfl
            rw [hseen1, hbn, specUniqueNames_cons, if_pos hfl0, List.map_append]
            simp
          · -- flags byte already present: layout names unchanged
            have hfl : sdictLookup st.counts "flags" = some (k + 1) := by
              rw [hinv "flags", hfl0]
              simp
            have hs2 : colStep m st c = .ok
                { st with flags_dict := sdictSet st.flags_dict f1 (f2, f3) } := by
              unfold colStep
              rw [hf, hfl]
              rfl
            rw [hs2] at hs
            injection hs with hs
            have hinv1 : ∀ f, sdictLookup st1.counts f
                = if acc.count f = 0 then none else some (acc.count f) := by
              intro f
              rw [← hs]
              exact hinv f
            have hih := ih st1 st' acc hinv1 h
            rw [hih, ← hs]
            have hbn : baseNames m (c :: rest) ((k + 1 : Nat) != 0)
                = baseNames m rest true := by
              simp [baseNames, hf]
            have hseen1 : (acc.count "flags" != 0) = true := by
              rw [hfl0]
              rfl
            rw [hbn, hseen1]

/-- C7: the field names of a successfully built layout are exactly the
base-name sequence with repeated names suffixed by their 1-based
occurrence count (first occurrence bare); in particular `[4, 6, 4]`
(time, Ewe, time) yields exactly `time/s`, `Ewe/V`, `time/s 2`. -/
theorem C7_unique_field_names :
    (∀ (colIDs : List Nat) layout fd,
       VMPdata_dtype_from_colIDs colIDs = .ok (layout, fd) →
       layout.map Prod.fst
         = specUniqueNames [] (baseNames (usedDtypeMap colIDs) colIDs false))
    ∧ VMPdata_dtype_from_colIDs [4, 6, 4]
        = .ok ([("time/s", "<f8"), ("Ewe/V", "<f4"), ("time/s 2", "<f8")], []) := by
  constructor
  · intro colIDs layout fd h
    unfold VMPdata_dtype_from_colIDs at h
    rcases hl : colLoop (usedDtypeMap colIDs) ⟨[], [], []⟩ colIDs with e | st <;>
      rw [hl] at h
    · exact absurd h (by simp)
    · injection h with h
      injection h with h1 h2
      have hn := colLoop_names (usedDtypeMap colIDs)
        (usedDtypeMap_no_flags_name colIDs) colIDs ⟨[], [], []⟩ st []
        (fun f => rfl) hl
      rw [← h1, hn]
      rfl
  · rfl

/-- Witness for C7: the layout of `[4, 6, 4]` carries exactly the names
predicted by the suffixing rule. -/
theorem C7_unique_field_names_witness :
    ([("time/s", "<f8"), ("Ewe/V", "<f4"), ("time/s 2", "<f8")]
        : List (String × String)).map Prod.fst
      = specUniqueNames [] (baseNames (usedDtypeMap [4, 6, 4]) [4, 6, 4] false) :=
  C7_unique_field_names.1 [4, 6, 4] _ _ rfl

/-! ## Date parsing (`parse_BioLogic_date`, C8)

`time.strptime` with the formats `%m/%d/%y`, `%m-%d-%y`, `%m.%d.%y` is
modelled from CPython `_strptime`: `%m` matches `1[0-2]|0[1-9]|[1-9]`,
`%d` matches `3[01]|[12]\d|0[1-9]|[1-9]`, `%y` matches exactly two
digits (00-68 mapping to 2000-2068, 69-99 to 1969-1999), the whole
string must be consumed, and strptime itself rejects a day that is out
of range for the month and year. Since the separator is never a digit,
backtracking in the regex never changes the outcome and the match is
deterministic. -/

/-- A `datetime.date` value. -/
structure PyDate where
  year : Nat
  month : Nat
  day : Nat
  deriving DecidableEq, Repr

inductive DateError where
  | noFormatMatch (input : String) (formats : List String)
  | unicodeDecodeError
  deriving DecidableEq, Repr

def isDigitChar (ch : Char) : Bool := '0' ≤ ch && ch ≤ '9'

def digitVal (ch : Char) : Nat := ch.toNat - 48

/-- `1[0-2]|0[1-9]` as a two-digit month. -/
def validTwoDigitMonth (d1 d2 : Nat) : Bool :=
  (d1 = 1 && d2 ≤ 2) || (d1 = 0 && 1 ≤ d2)

/-- `3[01]|[12]\d|0[1-9]` as a two-digit day. -/
def validTwoDigitDay (d1 d2 : Nat) : Bool :=
  (d1 = 3 && d2 ≤ 1) || d1 = 1 || d1 = 2 || (d1 = 0 && 1 ≤ d2)

/-- Match one month/day field: two digits when the two-digit alternative
matches, else a single nonzero digit (the next char is then not a digit,
so no backtracking point is lost). -/
def parseField (valid2 : Nat → Nat → Bool) : List Char → Option (Nat × List Char)
  | [] => none
  | [c1] =>
      if isDigitChar c1 && 1 ≤ digitVal c1 then some (digitVal c1, []) else none
  | c1 :: c2 :: rest =>
      if isDigitChar c1 then
        if isDigitChar c2 then
          if valid2 (digitVal c1) (digitVal c2) then
            some (10 * digitVal c1 + digitVal c2, rest)
          else none
        else if 1 ≤ digitVal c1 then some (digitVal c1, c2 :: rest) else none
      else none

def leapYear (y : Nat) : Bool := (y % 4 = 0 && y % 100 ≠ 0) || y % 400 = 0

def daysInMonth (y m : Nat) : Nat :=
  if m = 2 then (if leapYear y then 29 else 28)
  else if m = 4 || m = 6 || m = 9 || m = 11 then 30
  else 31

/-- The regex part of strptime on `MM<sep>DD<sep>YY`. -/
def strptimeMDY (sep : Char) : List Char → Option (Nat × Nat × Nat) :=
  fun s =>
    match parseField validTwoDigitMonth s with
    | none => none
    | some (mo, rest1) =>
        match rest1 with
        | [] => none
        | c :: rest2 =>
            if c = sep then
              match parseField validTwoDigitDay rest2 with
              | none => none
              | some (d, rest3) =>
                  match rest3 with
                  | [] => none
                  | c2 :: rest4 =>
                      if c2 = sep then
                        match rest4 with
                        | [y1, y2] =>
                            if isDigitChar y1 && isDigitChar y2 then
                              some (mo, d, 10 * digitVal y1 + digitVal y2)
                            else none
                        | _ => none
                      else none
            else none

/-- One `time.strptime(date_string, fmt)` attempt: regex match, `%y`
century mapping, and the day-of-month validity check strptime performs. -/
def strptimeFmt (sep : Char) (s : String) : Option PyDate :=
  match strptimeMDY sep s.data with
  | none => none
  | some (mo, d, y2) =>
      let year := if y2 ≤ 68 then 2000 + y2 else 1900 + y2
      if d ≤ daysInMonth year mo then some ⟨year, mo, d⟩ else none

def date_formats : List String := ["%m/%d/%y", "%m-%d-%y", "%m.%d.%y"]

/-- Embedding of `parse_BioLogic_date` on string input: try the three
formats in order, first success wins, no match is a fatal error naming
the input and the formats. -/
def parse_BioLogic_date (date_string : String) : Except DateError PyDate :=
  match strptimeFmt '/' date_string with
  | some t => .ok t
  | none =>
      match strptimeFmt '-' date_string with
      | some t => .ok t
      | none =>
          match strptimeFmt '.' date_string with
          | some t => .ok t
          | none => .error (.noFormatMatch date_string date_formats)

/-- `bytes.decode("ascii")`. -/
def decodeAscii (bs : List Nat) : Option String :=
  if bs.all (· < 128) then some ⟨bs.map Char.ofNat⟩ else none

/-- Embedding of `parse_BioLogic_date` on byte-string input. -/
def parse_BioLogic_date_bytes (bs : List Nat) : Except DateError PyDate :=
  match decodeAscii bs with
  | some s => parse_BioLogic_date s
  | none => .error .unicodeDecodeError

/-- C8: the date parser tries `%m/%d/%y`, `%m-%d-%y`, `%m.%d.%y` in that
order and returns the first match; `"02/23/17"` gives 2017-02-23,
`"10-03-05"` gives 2005-10-03; an input matching no format raises an
error naming the input and the attempted formats; byte-string input is
decoded as ASCII first. -/
theorem C8_date_parsing :
    parse_BioLogic_date "02/23/17" = .ok ⟨2017, 2, 23⟩
    ∧ parse_BioLogic_date "10-03-05" = .ok ⟨2005, 10, 3⟩
    ∧ (∀ s t, strptimeFmt '/' s = some t → parse_BioLogic_date s = .ok t)
    ∧ (∀ s t, strptimeFmt '/' s = none → strptimeFmt '-' s = some t →
        parse_BioLogic_date s = .ok t)
    ∧ (∀ s t, strptimeFmt '/' s = none → strptimeFmt '-' s = none →
        strptimeFmt '.' s = some t → parse_BioLogic_date s = .ok t)
    ∧ (∀ s, strptimeFmt '/' s = none → strptimeFmt '-' s = none →
        strptimeFmt '.' s = none →
        parse_BioLogic_date s = .error (.noFormatMatch s date_formats))
    ∧ (∀ bs s, decodeAscii bs = some s →
        parse_BioLogic_date_bytes bs = parse_BioLogic_date s) := by
  refine ⟨rfl, rfl, ?_, ?_, ?_, ?_, ?_⟩
  · intro s t h
    unfold parse_BioLogic_date
    rw [h]
  · intro s t h1 h2
    unfold parse_BioLogic_date
    rw [h1, h2]
  · intro s t h1 h2 h3
    unfold parse_BioLogic_date
    rw [h1, h2, h3]
  · intro s h1 h2 h3
    unfold parse_BioLogic_date
    rw [h1, h2, h3]
  · intro bs s h
    unfold parse_BioLogic_date_bytes
    rw [h]

/-- Witness for C8: `"2017-02-23"` (a four-digit year) matches none of
the three formats and yields the descriptive error. -/
theorem C8_date_parsing_witness :
    parse_BioLogic_date "2017-02-23" = .error (.noFormatMatch "2017-02-23" date_formats) :=
  C8_date_parsing.2.2.2.2.2.1 "2017-02-23" rfl rfl rfl

/-! ## The data module (`MPRfile.__init__` lines 771-817, C1 and C2) -/

/-- Python slice `data[a:b]` (clamping, empty when `b ≤ a`). -/
def pySlice (data : List Nat) (a b : Nat) : List Nat := (data.drop a).take (b - a)

/-- Little-endian value of a byte list. -/
def leVal (bs : List Nat) : Nat := bs.foldr (fun b acc => b + 256 * acc) 0

/-- `np.frombuffer(_, dtype="<u2")`: consecutive little-endian 16-bit words. -/
def le16list : List Nat → List Nat
  | b0 :: b1 :: rest => (b0 + 256 * b1) :: le16list rest
  | _ => []

/-- `column_types[1::2]`: every second byte, starting at index 1. -/
def everySecond : List Nat → List Nat
  | _ :: b :: rest => b :: everySecond rest
  | _ => []

/-- Errors of the data-module decode, one constructor per Python
exception site. -/
inductive DataError where
  | badPointCountBuffer
  | badColumnCountItem
  | badVersionByteItem
  | shortColumnTypes
  | unknownVersion (v : Nat)
  | nonzeroHeaderBytes
  | unknownColumn (e : ColError)
  | badBufferSize
  | pointCountMismatch (rows declared : Nat)
  deriving DecidableEq, Repr

structure DataResult where
  npts : Nat
  version : Nat
  cols : List Nat
  dtype : List (String × String)
  flags_dict : List (String × Nat × String)
  rows : Nat
  deriving DecidableEq, Repr

/-- The tail of the data-module decode, common to all versions: the
zero check on the remaining header bytes (`assert not any(...)`), the
layout construction, `np.frombuffer(main_data, dtype)` (which requires a
positive itemsize dividing the buffer length) and the row-count assert. -/
def finishDataModule (version n_data_points : Nat) (column_types : List Nat)
    (remaining_headers main_data : List Nat) : Except DataError DataResult :=
  if remaining_headers.all (· == 0) then
    match VMPdata_dtype_from_colIDs column_types with
    | .error e => .error (.unknownColumn e)
    | .ok (tl, fd) =>
        if layoutSize tl = 0 then .error .badBufferSize
        else if main_data.length % layoutSize tl ≠ 0 then .error .badBufferSize
        else if main_data.length / layoutSize tl = n_data_points then
          .ok ⟨n_data_points, version, column_types, tl, fd,
               main_data.length / layoutSize tl⟩
        else .error (.pointCountMismatch (main_data.length / layoutSize tl) n_data_points)
  else .error .nonzeroHeaderBytes

/-- The remaining-header region checked for zero bytes, per version, as
sliced by the source (`remaining_headers = ...`). -/
def remainingHeaders (version : Nat) (data : List Nat) : List Nat :=
  let n_columns := data.getD 4 0
  if version = 0 then
    if data.getD 5 0 ≠ 0 then pySlice data (5 + n_columns) 100
    else pySlice data (6 + n_columns * 2) 1006
  else if version = 2 ∨ version = 3 then pySlice data (5 + 2 * n_columns) 405
  else if version = 1 then pySlice data (5 + 2 * n_columns) 195
  else []

/-- Embedding of the data-module decode in `MPRfile.__init__`: point
count from bytes 0-3, column count from byte 4, version-dependent
column-type array and data offset, zero check, layout, dense decode and
the row-count assert. -/
def processDataModule (version : Nat) (data : List Nat) : Except DataError DataResult :=
  if data.length ≠ 0 ∧ data.length < 4 then .error .badPointCountBuffer
  else if data.length < 5 then .error .badColumnCountItem
  else
      if version = 0 then
        if data.length < 6 then .error .badVersionByteItem
        else if data.getD 5 0 ≠ 0 then
          -- EC-Lab ≥ 11.50 sub-variant: one byte per column type
          if data.length - 5 < data.getD 4 0 then .error .shortColumnTypes
          else
            finishDataModule version (leVal (data.take 4))
              (pySlice data 5 (5 + data.getD 4 0))
              (remainingHeaders version data) (data.drop 100)
        else
          -- old sub-variant: interleaved zero bytes, keep every second byte
          if data.length - 5 < data.getD 4 0 * 2 then .error .shortColumnTypes
          else
            finishDataModule version (leVal (data.take 4))
              (everySecond (pySlice data 5 (5 + data.getD 4 0 * 2)))
              (remainingHeaders version data) (data.drop 1007)
      else if version = 2 ∨ version = 3 then
        if data.length - 5 < 2 * data.getD 4 0 then .error .shortColumnTypes
        else
          finishDataModule version (leVal (data.take 4))
            (le16list (pySlice data 5 (5 + 2 * data.getD 4 0)))
            (remainingHeaders version data)
            (data.drop (if version = 3 then 406 else 405))
      else if version = 1 then
        if data.length - 5 < 2 * data.getD 4 0 then .error .shortColumnTypes
        else
          finishDataModule version (leVal (data.take 4))
            (le16list (pySlice data 5 (5 + 2 * data.getD 4 0)))
            (remainingHeaders version data) (data.drop 195)
      else .error (.unknownVersion version)

theorem finishDataModule_ok (version n_data_points : Nat) (column_types : List Nat)
    (remaining_headers main_data : List Nat) (r : DataResult)
    (h : finishDataModule version n_data_points column_types remaining_headers main_data
        = .ok r) :
    r.rows = n_data_points ∧ r.npts = n_data_points
      ∧ remaining_headers.all (· == 0) = true := by
  unfold finishDataModule at h
  split at h
  · split at h
    · exact absurd h (by simp)
    · split at h
      · exact absurd h (by simp)
      · split at h
        · exact absurd h (by simp)
        · split at h
          · injection h with h
            subst h
            refine ⟨?_, rfl, by assumption⟩
            simpa using (by assumption : _ = n_data_points)
          · exact absurd h (by simp)
  · exact absurd h (by simp)

theorem processDataModule_finish (version : Nat) (data : List Nat) (r : DataResult)
    (h : processDataModule version data = .ok r) :
    ∃ column_types main_data,
      finishDataModule version (leVal (data.take 4)) column_types
        (remainingHeaders version data) main_data = .ok r := by
  unfold processDataModule at h
  split at h
  · exact absurd h (by simp)
  · split at h
    · exact absurd h (by simp)
    · split at h
      · split at h
        · exact absurd h (by simp)
        · split at h
          · split at h
            · exact absurd h (by simp)
            · exact ⟨_, _, h⟩
          · split at h
            · exact absurd h (by simp)
            · exact ⟨_, _, h⟩
      · split at h
        · split at h
          · exact absurd h (by simp)
          · exact ⟨_, _, h⟩
        · split at h
          · split at h
            · exact absurd h (by simp)
            · exact ⟨_, _, h⟩
          · exact absurd h (by simp)

/-- C1: whenever the data-module decode succeeds, the number of decoded
records equals the point count declared in the first four little-endian
bytes of the payload (so any mismatch means no parse result). -/
theorem C1_row_count_equals_declared (version : Nat) (data : List Nat) (r : DataResult)
    (h : processDataModule version data = .ok r) :
    r.rows = leVal (data.take 4) ∧ r.npts = leVal (data.take 4) := by
  obtain ⟨ct, md, hf⟩ := processDataModule_finish version data r h
  obtain ⟨h1, h2, -⟩ := finishDataModule_ok _ _ _ _ _ _ hf
  exact ⟨h1, h2⟩

/-- A concrete version-2 data module: 1 point, 1 column (ID 4, an 8-byte
`time/s` field), zero header padding up to byte 405, 8 payload bytes. -/
def exDataV2 : List Nat :=
  [1, 0, 0, 0] ++ [1] ++ [4, 0] ++ List.replicate 398 0 ++ List.replicate 8 0

set_option maxRecDepth 100000 in
/-- Witness for C1: the concrete version-2 module decodes to one row,
matching its declared point count. -/
theorem C1_row_count_equals_declared_witness :
    (⟨1, 2, [4], [("time/s", "<f8")], [], 1⟩ : DataResult).rows = leVal (exDataV2.take 4)
      ∧ (⟨1, 2, [4], [("time/s", "<f8")], [], 1⟩ : DataResult).npts
        = leVal (exDataV2.take 4) :=
  C1_row_count_equals_declared 2 exDataV2 _ rfl

/-- A concrete version-3 data module: like `exDataV2` but with the
version-3 marker byte `\\x01` at offset 405 and data starting at 406. -/
def exDataV3 : List Nat :=
  [1, 0, 0, 0] ++ [1] ++ [4, 0] ++ List.replicate 398 0 ++ [1] ++ List.replicate 8 0

set_option maxRecDepth 100000 in
/-- Counterexample for C2 as stated: in a version-3 module the byte at
offset 405 lies after the column-type array (which ends at offset
5 + 2·n_columns = 7) and before the data-start offset 406, yet a nonzero
value there does not fail the parse — the checked slice stops at 405. -/
theorem C2_counterexample_v3_marker :
    exDataV3.getD 405 0 = 1
    ∧ 5 + 2 * exDataV3.getD 4 0 ≤ 405
    ∧ 405 < 406
    ∧ processDataModule 3 exDataV3 = .ok ⟨1, 3, [4], [("time/s", "<f8")], [], 1⟩ := by
  refine ⟨by decide, by decide, by decide, rfl⟩

/-- C2 (amended): a successful parse forces every byte of the
version-dependent checked header slice (`remaining_headers` in the
source: up to byte 100 / 1006 / 195 / 405, starting after the
column-type array — one byte later for the version-0 old sub-variant) to
be zero, and a nonzero byte in that slice always prevents a parse
result; bytes outside the slice (the byte right after the column-type
array and byte 1006 in the version-0 old sub-variant, and the marker
byte 405 in version 3) are not constrained. -/
theorem C2_checked_header_bytes_zero (version : Nat) (data : List Nat) :
    (∀ r, processDataModule version data = .ok r →
      ((remainingHeaders version data).all (· == 0)) = true)
    ∧ (((remainingHeaders version data).all (· == 0)) = false →
      ∀ r, processDataModule version data ≠ .ok r) := by
  constructor
  · intro r h
    obtain ⟨ct, md, hf⟩ := processDataModule_finish version data r h
    exact (finishDataModule_ok _ _ _ _ _ _ hf).2.2
  · intro hz r h
    obtain ⟨ct, md, hf⟩ := processDataModule_finish version data r h
    rw [(finishDataModule_ok _ _ _ _ _ _ hf).2.2] at hz
    exact absurd hz (by simp)

set_option maxRecDepth 100000 in
/-- Witness for C2 (amended): the checked slice of the concrete
version-2 module is all zero. -/
theorem C2_checked_header_bytes_zero_witness :
    ((remainingHeaders 2 exDataV2).all (· == 0)) = true :=
  (C2_checked_header_bytes_zero 2 exDataV2).1 ⟨1, 2, [4], [("time/s", "<f8")], [], 1⟩ rfl

/-! ## Module payload reading (`read_VMP_modules` lines 627-642, C3) -/

/-- Python exceptions reachable from the payload read of
`read_VMP_modules`. -/
inductive PyExc where
  | nameError (missing : String)
  | ioErrorTruncated (longname : String) (lengthRead lengthExpected : Nat)
  deriving DecidableEq, Repr

/-- The payload read step of `read_VMP_modules`: read `length` bytes
(`fileobj.read` returns at most what remains), and on a short read run
the error branch.  That branch first evaluates
`isinstance(file_or_path, str)` — but `file_or_path` is not defined
anywhere in the scope of `read_VMP_modules` (it is only a parameter of
other functions), so Python raises `NameError` there, before the
descriptive `IOError` (which would carry the module long name and the
read/expected counts) is ever constructed. -/
def readModulePayload (_longname : String) (length : Nat) (stream : List Nat) :
    Except PyExc (List Nat) :=
  if (stream.take length).length ≠ length then .error (.nameError "file_or_path")
  else .ok (stream.take length)

/-- C3 is a code bug: a short payload read does fail, but with
`NameError: name 'file_or_path' is not defined` — the truncation
`IOError` carrying the module name and the byte counts is unreachable.
The module name and counts are dropped on the floor. -/
theorem C3_short_read_raises_nameError :
    (readModulePayload "VMP data" 10 (List.replicate 5 0)
      = .error (.nameError "file_or_path"))
    ∧ (∀ longname length stream, stream.length < length →
        readModulePayload longname length stream = .error (.nameError "file_or_path"))
    ∧ (∀ longname length stream nm rd ex,
        readModulePayload longname length stream ≠ .error (.ioErrorTruncated nm rd ex)) := by
  refine ⟨rfl, ?_, ?_⟩
  · intro longname length stream h
    unfold readModulePayload
    rw [if_pos]
    rw [List.length_take]
    omega
  · intro longname length stream nm rd ex h
    unfold readModulePayload at h
    split at h <;> simp at h

/-- Witness for C3: a module declaring 7 bytes with an empty stream. -/
theorem C3_short_read_raises_nameError_witness :
    readModulePayload "VMP LOG" 7 [] = .error (.nameError "file_or_path") :=
  C3_short_read_raises_nameError.2.1 "VMP LOG" 7 [] (by decide)

/-! ## MPRfile (`MPRfile.__init__` lines 744-863, C4 and C10)

The embedding starts from the module list produced by
`read_VMP_modules` (magic check and module scanning precede it in the
source).  File-system state matters only through the two running-
experiment side files, so a path input carries the parsed outcome of
each side file (`none`: the file does not exist; `some (.error _)`: it
exists but its reader raises; `some (.ok _)`: what the reader returns);
a file-object input carries nothing — the source only assigns
`loop_file` / `log_file` in the `isinstance(file_or_path, str)` branch,
so the file-object branches that read them raise `UnboundLocalError`.

`datetime.timedelta(days=v)` for a float `v` is modelled as rounding
`v · 86400·10⁶` to the nearest microsecond, ties to even, and the
timestamp is stored as total microseconds since the OLE epoch
1899-12-30T00:00 (proleptic-Gregorian ordinal 693594). -/

/-- The exact value of an IEEE 754 binary64, as a dyadic rational
`num / 2^k`.  Exact, so comparisons and day arithmetic on it are the
exact float semantics of the source. -/
structure Dyadic where
  num : Int
  k : Nat
  deriving DecidableEq, Repr

/-- IEEE 754 binary64 little-endian decode; `none` for exponent 2047
(NaN and ±inf — such values never pass the strict range filter below, in
Python as here). -/
def decodeF64 (bs : List Nat) : Option Dyadic :=
  if (leVal bs / 2 ^ 52) % 2 ^ 11 = 2047 then none
  else if (leVal bs / 2 ^ 52) % 2 ^ 11 = 0 then
    some ⟨(if leVal bs / 2 ^ 63 = 1 then -1 else 1) * (leVal bs % 2 ^ 52 : Nat), 1074⟩
  else if 1075 ≤ (leVal bs / 2 ^ 52) % 2 ^ 11 then
    some ⟨(if leVal bs / 2 ^ 63 = 1 then -1 else 1)
      * ((2 ^ 52 + leVal bs % 2 ^ 52) * 2 ^ ((leVal bs / 2 ^ 52) % 2 ^ 11 - 1075)
         : Nat), 0⟩
  else
    some ⟨(if leVal bs / 2 ^ 63 = 1 then -1 else 1) * (2 ^ 52 + leVal bs % 2 ^ 52 : Nat),
          1075 - (leVal bs / 2 ^ 52) % 2 ^ 11⟩

/-- `a < d` for an integer bound and a float value, exactly. -/
def intLtDyadic (a : Int) (d : Dyadic) : Bool := decide (a * 2 ^ d.k < d.num)

/-- `d < a`, exactly. -/
def dyadicLtInt (d : Dyadic) (a : Int) : Bool := decide (d.num < a * 2 ^ d.k)

/-- Round `a / b` (for `b > 0`) to the nearest integer, ties to even
(C `round_half_to_even`, used by the `timedelta` constructor). -/
def intRoundHalfEven (a b : Int) : Int :=
  if 2 * a.emod b < b then a.fdiv b
  else if b < 2 * a.emod b then a.fdiv b + 1
  else if (a.fdiv b) % 2 = 0 then a.fdiv b else a.fdiv b + 1

/-- `timedelta(days=v)` as total microseconds. -/
def tsTotalMicro (v : Dyadic) : Int :=
  intRoundHalfEven (v.num * 86400000000) (2 ^ v.k)

/-- The `.date()` ordinal of `datetime(1899, 12, 30) + timedelta(days=v)`
given the delta in microseconds (1899-12-30 has ordinal 693594). -/
def tsDateOrdOfMicro (us : Int) : Int := 693594 + Int.fdiv us 86400000000

/-- `datetime.date.toordinal()` (proleptic Gregorian). -/
def toordinal (d : PyDate) : Nat :=
  365 * (d.year - 1) + (d.year - 1) / 4 - (d.year - 1) / 100 + (d.year - 1) / 400
    + ((List.range (d.month - 1)).map (fun i => daysInMonth d.year (i + 1))).sum
    + d.day

/-- `np.trim_zeros(_, "b")`. -/
def trimZerosBack (l : List Nat) : List Nat :=
  (l.reverse.dropWhile (· == 0)).reverse

/-- `np.frombuffer(_, "<u4")` on a buffer of whole words. -/
def le32chunks : List Nat → List Nat
  | b0 :: b1 :: b2 :: b3 :: rest =>
      (b0 + 256 * (b1 + 256 * (b2 + 256 * b3))) :: le32chunks rest
  | _ => []

structure VMPModule where
  shortname : String
  longname : String
  version : Nat
  date : List Nat
  data : List Nat
  deriving DecidableEq, Repr

inductive MPRInput where
  | fileobj
  | path (loopFile : Option (Except Unit (List Nat))) (logFile : Option (Except Unit ℤ))

inductive MPRError where
  | unpackValueError
  | dataError (e : DataError)
  | dateError (e : DateError)
  | unboundLocal (name : String)
  | loopBufferError
  | loopVersionError (dataModuleVersion : Nat)
  | loopIndexEmpty
  | sideFileError
  | logBufferError
  | timestampNotFound
  | dateMismatch
  deriving DecidableEq, Repr

structure MPRResult where
  npts : Nat
  rows : Nat
  version : Nat
  cols : List Nat
  dtype : List (String × String)
  flags_dict : List (String × Nat × String)
  startdate : Option ℤ
  enddate : Option PyDate
  timestamp : Option ℤ
  loop_index : Option (List Nat)
  deriving DecidableEq, Repr

/-- The timestamp scan of the log module: for `i in range(8)`, decode 37
doubles from offset `400 + i` (fewer than 296 bytes available raises),
keep those strictly between 33315 and 50000 and stop at the first `i`
with a hit; none over all eight offsets is fatal.  The `fuel` argument
counts the remaining iterations, starting at 8. -/
def oleScanGo (data : List Nat) (i : Nat) : Nat → Except MPRError Dyadic
  | 0 => .error .timestampNotFound
  | fuel + 1 =>
      if data.length < 400 + i + 296 then .error .logBufferError
      else
        match ((List.range 37).filterMap
            (fun j => decodeF64 ((data.drop (400 + i + 8 * j)).take 8))).filter
            (fun q => intLtDyadic 33315 q && dyadicLtInt q 50000) with
        | v :: _ => .ok v
        | [] => oleScanGo data (i + 1) fuel

def oleScan (data : List Nat) : Except MPRError Dyadic := oleScanGo data 0 8

/-- Lines 818-820: start date from the settings module, when present. -/
def startdateFromSet (maybe_set : List VMPModule) : Except MPRError (Option ℤ) :=
  match maybe_set with
  | [] => .ok none
  | [sm] =>
      match parse_BioLogic_date_bytes sm.date with
      | .ok d => .ok (some (toordinal d : ℤ))
      | .error e => .error (.dateError e)
  | _ => .error .unpackValueError

/-- Lines 822-835: the loop index, from the loop module when present,
otherwise (path input only) from the `_LOOP.txt` side file. -/
def loopStage (input : MPRInput) (npts : Nat) (maybe_loop : List VMPModule)
    (dataModuleVersion : Nat) : Except MPRError (Option (List Nat)) :=
  match maybe_loop with
  | [lm] =>
      if lm.version = 0 then
        if (lm.data.drop 4).length % 4 = 0 then
          .ok (some (trimZerosBack (le32chunks (lm.data.drop 4))))
        else .error .loopBufferError
      -- NB the source's error message interpolates the *data* module's
      -- version here
      else .error (.loopVersionError dataModuleVersion)
  | [] =>
      match input with
      | .fileobj => .error (.unboundLocal "loop_file")
      | .path loopFile _ =>
          match loopFile with
          | none => .ok none
          | some (.error _) => .error .sideFileError
          | some (.ok li) =>
              match li.getLast? with
              | none => .error .loopIndexEmpty
              | some l => if l < npts then .ok (some (li ++ [npts])) else .ok (some li)
  | _ => .error .unpackValueError

/-- Lines 837-863: end date, acquisition timestamp and the start-date
fallback / cross-check from the log module; with no log module (path
input only) the `.mpl` side file can still supply the timestamp — but
never the start date. -/
def logStage (input : MPRInput) (maybe_log : List VMPModule) (startdate0 : Option ℤ) :
    Except MPRError (Option PyDate × Option ℤ × Option ℤ) :=
  match maybe_log with
  | [lm] =>
      match parse_BioLogic_date_bytes lm.date with
      | .error e => .error (.dateError e)
      | .ok ed =>
          match oleScan lm.data with
          | .error e => .error e
          | .ok v =>
              match startdate0 with
              | none =>
                  .ok (some ed, some (tsTotalMicro v),
                       some (tsDateOrdOfMicro (tsTotalMicro v)))
              | some sd =>
                  if sd = tsDateOrdOfMicro (tsTotalMicro v) then
                    .ok (some ed, some (tsTotalMicro v), some sd)
                  else .error .dateMismatch
  | [] =>
      match input with
      | .fileobj => .error (.unboundLocal "log_file")
      | .path _ logFile =>
          match logFile with
          | none => .ok (none, none, startdate0)
          | some (.error _) => .error .sideFileError
          | some (.ok ts) => .ok (none, some ts, startdate0)
  | _ => .error .unpackValueError

/-- `(data_module,) = (m for m in modules if ...)`: exactly one data
module, else `ValueError`. -/
def unpackDataModule (modules : List VMPModule) : Except MPRError VMPModule :=
  match modules.filter (fun mo => mo.shortname = "VMP data  ") with
  | [data_module] => .ok data_module
  | _ => .error .unpackValueError

def liftData : Except DataError DataResult → Except MPRError DataResult
  | .ok dr => .ok dr
  | .error e => .error (.dataError e)

/-- Embedding of `MPRfile.__init__` from the module list on: exactly one
data module is unpacked, decoded, and the optional settings / loop / log
modules fill in the optional fields, in source order. -/
def MPRfile_init (input : MPRInput) (modules : List VMPModule) :
    Except MPRError MPRResult := do
  let data_module ← unpackDataModule modules
  let dr ← liftData (processDataModule data_module.version data_module.data)
  let startdate0 ← startdateFromSet
    (modules.filter (fun mo => mo.shortname = "VMP Set   "))
  let loop_index ← loopStage input dr.npts
    (modules.filter (fun mo => mo.shortname = "VMP loop  ")) data_module.version
  let (enddate, ts, startdate) ← logStage input
    (modules.filter (fun mo => mo.shortname = "VMP LOG   ")) startdate0
  return ⟨dr.npts, dr.rows, dr.version, dr.cols, dr.dtype, dr.flags_dict,
          startdate, enddate, ts, loop_index⟩

theorem exceptBindOk {ε α β : Type} (a : α) (f : α → Except ε β) :
    (Except.ok (ε := ε) a >>= f) = f a := rfl

theorem exceptBindError {ε α β : Type} (e : ε) (f : α → Except ε β) :
    (Except.error (α := α) e >>= f) = Except.error e := rfl

def exDataModule : VMPModule := ⟨"VMP data  ", "data", 2, [], exDataV2⟩

def exLoopModule : VMPModule := ⟨"VMP loop  ", "loop", 0, [], [0, 0, 0, 0]⟩

/-- `"10/03/05"` as ASCII bytes. -/
def exLogDateBytes : List Nat := [49, 48, 47, 48, 51, 47, 48, 53]

def exLogModule : VMPModule :=
  ⟨"VMP LOG   ", "log", 0, exLogDateBytes,
   List.replicate 400 0 ++ [0, 0, 0, 0, 0, 136, 227, 64] ++ List.replicate 288 0⟩

set_option maxRecDepth 1000000 in
/-- C4 is a code bug.  For a path input the claim holds: with only a
data module the parse succeeds and every optional field is unset.  But
for a file-object input `loop_file` (and `log_file`) are only assigned
in the `isinstance(file_or_path, str)` branch, so with no loop module
line 832 (`path.isfile(loop_file)`) raises `UnboundLocalError` — and
with a loop module but no log module line 862 raises it for
`log_file` — instead of leaving the fields unset. -/
theorem C4_absent_optional_modules :
    MPRfile_init (.path none none) [exDataModule]
      = .ok ⟨1, 1, 2, [4], [("time/s", "<f8")], [], none, none, none, none⟩
    ∧ MPRfile_init .fileobj [exDataModule] = .error (.unboundLocal "loop_file")
    ∧ MPRfile_init .fileobj [exDataModule, exLoopModule]
      = .error (.unboundLocal "log_file") :=
  ⟨rfl, rfl, rfl⟩

theorem startdateFromSet_single (sm : VMPModule) (sd : Option Int)
    (h : startdateFromSet [sm] = .ok sd) :
    ∃ d, parse_BioLogic_date_bytes sm.date = .ok d
      ∧ sd = some ((toordinal d : Int)) := by
  simp only [startdateFromSet] at h
  rcases hp : parse_BioLogic_date_bytes sm.date with e | d <;> rw [hp] at h
  · exact absurd h (by simp)
  · refine ⟨d, rfl, ?_⟩
    injection h with h
    exact h.symm

theorem logStage_nil (input : MPRInput) (sd : Option Int)
    (out : Option PyDate × Option Int × Option Int)
    (h : logStage input [] sd = .ok out) : out.2.2 = sd := by
  simp only [logStage] at h
  split at h
  · exact absurd h (by simp)
  · split at h
    · injection h with h
      rw [← h]
    · exact absurd h (by simp)
    · injection h with h
      rw [← h]

theorem logStage_single (input : MPRInput) (lm : VMPModule) (sd : Option Int)
    (out : Option PyDate × Option Int × Option Int)
    (h : logStage input [lm] sd = .ok out) :
    out.2.2 ≠ none ∧ (sd ≠ none → out.2.2 = sd) := by
  simp only [logStage] at h
  split at h
  · exact absurd h (by simp)
  · split at h
    · exact absurd h (by simp)
    · split at h
      · injection h with h
        rw [← h]
        exact ⟨by simp, fun hc => absurd rfl hc⟩
      · split at h
        · injection h with h
          rw [← h]
          exact ⟨by simp, fun _ => rfl⟩
        · exact absurd h (by simp)

/-- C10 (amended): the start date comes from the settings module's date
when a settings module is present; with neither a settings nor a log
module a successful parse leaves it unset; but with no settings module
and a log module present it is not left unset — it is filled in from the
acquisition timestamp (lines 852-853). -/
theorem C10_startdate_source (input : MPRInput) (mods : List VMPModule)
    (r : MPRResult) (h : MPRfile_init input mods = .ok r) :
    (∀ sm, mods.filter (fun mo => mo.shortname = "VMP Set   ") = [sm] →
        ∃ d, parse_BioLogic_date_bytes sm.date = .ok d
          ∧ r.startdate = some ((toordinal d : Int)))
    ∧ ((mods.filter (fun mo => mo.shortname = "VMP Set   ") = []
        ∧ mods.filter (fun mo => mo.shortname = "VMP LOG   ") = []) →
        r.startdate = none)
    ∧ (∀ lm, mods.filter (fun mo => mo.shortname = "VMP Set   ") = [] →
        mods.filter (fun mo => mo.shortname = "VMP LOG   ") = [lm] →
        r.startdate ≠ none) := by
  unfold MPRfile_init at h
  rcases hup : unpackDataModule mods with e | dm
  · rw [hup, exceptBindError] at h
    exact absurd h (by simp)
  · simp only [hup, exceptBindOk] at h
    rcases hpd : processDataModule dm.version dm.data with e | dr
    · simp only [hpd, liftData, exceptBindError] at h
      exact absurd h (by simp)
    · simp only [hpd, liftData, exceptBindOk] at h
      rcases hset : startdateFromSet
          (mods.filter (fun mo => mo.shortname = "VMP Set   ")) with e | sd0
      · simp only [hset, exceptBindError] at h
        exact absurd h (by simp)
      · simp only [hset, exceptBindOk] at h
        rcases hloop : loopStage input dr.npts
            (mods.filter (fun mo => mo.shortname = "VMP loop  ")) dm.version
            with e | li
        · simp only [hloop, exceptBindError] at h
          exact absurd h (by simp)
        · simp only [hloop, exceptBindOk] at h
          rcases hlog : logStage input
              (mods.filter (fun mo => mo.shortname = "VMP LOG   ")) sd0
              with e | out
          · simp only [hlog, exceptBindError] at h
            exact absurd h (by simp)
          · obtain ⟨ed, ts, sdf⟩ := out
            simp only [hlog, exceptBindOk, pure, Except.pure] at h
            injection h with h
            have hsd : r.startdate = sdf := by rw [← h]
            refine ⟨?_, ?_, ?_⟩
            · intro sm hsm
              rw [hsm] at hset
              obtain ⟨d, hd, hsd0⟩ := startdateFromSet_single sm sd0 hset
              refine ⟨d, hd, ?_⟩
              rw [hsd]
              rcases hlf : mods.filter (fun mo => mo.shortname = "VMP LOG   ")
                  with _ | ⟨lm1, lmrest⟩ <;> rw [hlf] at hlog
              · rw [show sdf = sd0 from logStage_nil input sd0 (ed, ts, sdf) hlog, hsd0]
              · rcases lmrest with _ | ⟨lm2, lmrest2⟩
                · have := (logStage_single input lm1 sd0 (ed, ts, sdf) hlog).2
                    (by rw [hsd0]; simp)
                  rw [show sdf = sd0 from this, hsd0]
                · exact absurd hlog (by simp [logStage])
            · rintro ⟨hsnil, hlnil⟩
              rw [hsnil] at hset
              have hsd0 : sd0 = none := by
                injection hset with hset
                exact hset.symm
              rw [hlnil] at hlog
              rw [hsd, show sdf = sd0 from logStage_nil input sd0 (ed, ts, sdf) hlog,
                hsd0]
            · intro lm hsnil hlsingle
              rw [hlsingle] at hlog
              rw [hsd]
              exact (logStage_single input lm sd0 (ed, ts, sdf) hlog).1

set_option maxRecDepth 1000000 in
/-- Witness for C10 (amended): the concrete data+log stream (no settings
module) parses and has its start date filled in from the timestamp. -/
theorem C10_startdate_source_witness :
    ([exDataModule, exLogModule].filter (fun mo => mo.shortname = "VMP Set   ") = [])
    ∧ (⟨1, 1, 2, [4], [("time/s", "<f8")], [], some 733594, some ⟨2005, 10, 3⟩,
        some 3456000000000000, none⟩ : MPRResult).startdate ≠ none :=
  ⟨rfl, (C10_startdate_source (.path none none) [exDataModule, exLogModule] _ rfl).2.2
     exLogModule rfl rfl⟩

set_option maxRecDepth 1000000 in
/-- Counterexample to C10 as stated: a module list with no settings
module (data + log only) parses successfully, yet the start date is not
left unset — it is set to the timestamp's date, ordinal 733594
(2009-07-06). -/
theorem C10_counterexample_log_fallback :
    ([exDataModule, exLogModule].filter (fun mo => mo.shortname = "VMP Set   ") = [])
    ∧ MPRfile_init (.path none none) [exDataModule, exLogModule]
      = .ok ⟨1, 1, 2, [4], [("time/s", "<f8")], [], some 733594,
             some ⟨2005, 10, 3⟩, some 3456000000000000, none⟩ :=
  ⟨rfl, rfl⟩

end Galvani
